import Mathlib

/-
  Formal model of the kflash flash-orchestration engine.

  Python strings are modelled as `List Char` (a Python `str` is a sequence of
  code points).  Each definition is a direct translation of the corresponding
  function in the kflash sources (file and function named in its doc comment).
  Time-based polling deadlines are modelled by an explicit list of scan
  results: each element is the listing returned by one poll tick, and
  exhausting the list is the deadline expiring.
-/

namespace KFlash

/-- A Python string, viewed as its sequence of code points. -/
abbrev PyStr := List Char

/-- Consume a literal `lit` from the front of a character list, returning the
remainder; `none` when the list does not start with `lit`.  This is the
primitive used to model Python `str.startswith` and prefix slicing. -/
def dropLit : PyStr → PyStr → Option PyStr
  | [], cs => some cs
  | _ :: _, [] => none
  | p :: ps, c :: cs => if c = p then dropLit ps cs else none

/-- Model of `str.lower()` for the ASCII device names handled by kflash. -/
def pyLower (s : PyStr) : PyStr := s.map Char.toLower

/-- Model of Python `str.startswith` via `dropLit`. -/
def startsWithL (lit s : PyStr) : Bool := (dropLit lit s).isSome

/-- Model of `os.path.basename`: the part of the path after the last slash. -/
def basenameL (s : PyStr) : PyStr := (s.reverse.takeWhile (fun c => c ≠ '/')).reverse

/-- Model of `os.path.join(dir, name)` for the single-component joins kflash
performs: an absolute `name` replaces `dir`, otherwise a slash is inserted. -/
def pyJoin (dir name : PyStr) : PyStr :=
  match name with
  | '/' :: _ => name
  | _ => dir ++ '/' :: name

/-- ASCII whitespace test used to model Python `str.strip()`. -/
def isPySpace (c : Char) : Bool := c = ' ' || c = '\t' || c = '\n' || c = '\r'

/-- Model of Python `str.strip()` (ASCII whitespace). -/
def pyStrip (s : PyStr) : PyStr :=
  ((s.dropWhile isPySpace).reverse.dropWhile isPySpace).reverse

/-- Character class `[a-zA-Z0-9]` of the signature regex. -/
def isAlnumChar (c : Char) : Bool := c.isAlpha || c.isDigit

/-- Character class `[A-Fa-f0-9]` of the signature regex. -/
def isHexDigitChar (c : Char) : Bool :=
  ('A' ≤ c && c ≤ 'F') || ('a' ≤ c && c ≤ 'f') || c.isDigit

/-- Attempt to match the anchored signature regex
`usb-(?:Klipper|katapult)_([a-zA-Z0-9]+)_([A-Fa-f0-9]+)` at the start of `cs`
(from `bootloader.py`, `_SIGNATURE_RE`).  Group 1 is the maximal non-empty
alphanumeric run, which must be followed by an underscore and then group 2,
the maximal non-empty hex run. -/
def sigAt (cs : PyStr) : Option (PyStr × PyStr) :=
  match dropLit "usb-".toList cs with
  | none => none
  | some cs1 =>
    let afterTag : Option PyStr :=
      match dropLit "Klipper_".toList cs1 with
      | some r => some r
      | none => dropLit "katapult_".toList cs1
    match afterTag with
    | none => none
    | some cs2 =>
      match cs2.span isAlnumChar with
      | ([], _) => none
      | (mcu, rest) =>
        match rest with
        | '_' :: rest2 =>
          match rest2.span isHexDigitChar with
          | ([], _) => none
          | (hex, _) => some (pyLower mcu, hex)
        | _ => none

/-- Model of `re.search` with the signature regex: try `sigAt` at every
position, leftmost match wins. -/
def sigSearch : PyStr → Option (PyStr × PyStr)
  | [] => none
  | c :: cs =>
    match sigAt (c :: cs) with
    | some r => some r
    | none => sigSearch cs

/-- Model of `bootloader.extract_device_signature`: extract
`(mcu_type, serial_hex)` from a `/dev/serial/by-id/` filename, with the MCU
type lowercased; `none` when the regex does not match. -/
def extract_device_signature (filename : PyStr) : Option (PyStr × PyStr) :=
  sigSearch filename

/-- Parse the contents of a glob bracket set into (lo, hi) ranges; a single
character `c` becomes the degenerate range `(c, c)`.  A hyphen at the start or
end of the set is a literal. -/
def setItems : PyStr → List (Char × Char)
  | a :: '-' :: b :: rest => (a, b) :: setItems rest
  | a :: rest => (a, a) :: setItems rest
  | [] => []

/-- Membership test for a glob bracket set, honouring a leading `!` as
negation.  Ranges with `lo > hi` match nothing, as in `fnmatch.translate`. -/
def setMatch (stuff : PyStr) (c : Char) : Bool :=
  match stuff with
  | '!' :: rest => !((setItems rest).any fun lh => lh.1 ≤ c && c ≤ lh.2)
  | _ => (setItems stuff).any fun lh => lh.1 ≤ c && c ≤ lh.2

/-- Accumulating scan for the closing `]` of a bracket set. -/
def splitSetCore : PyStr → PyStr → Option (PyStr × PyStr)
  | _, [] => none
  | acc, ']' :: rest => some (acc.reverse, rest)
  | acc, c :: rest => splitSetCore (c :: acc) rest

/-- Find the closing `]` of a glob bracket set, given the characters after the
opening `[`.  Follows `fnmatch.translate`: a `!` immediately after `[` and a
`]` immediately after that are part of the set contents, not terminators.
Returns the set contents and the remainder, or `none` when the set is
unterminated (in which case `[` is treated as a literal). -/
def splitSet (l : PyStr) : Option (PyStr × PyStr) :=
  match l with
  | '!' :: ']' :: rest => splitSetCore [']', '!'] rest
  | '!' :: rest => splitSetCore ['!'] rest
  | ']' :: rest => splitSetCore [']'] rest
  | rest => splitSetCore [] rest

/-- Core glob matcher: does `pattern` match the whole of `name`?  Models the
semantics of Python `fnmatch.fnmatch` on a POSIX host (where
`os.path.normcase` is the identity, so matching is case-sensitive): `*`
matches any sequence, `?` any single character, `[...]` a bracket set, and an
unterminated `[` is a literal. -/
def globCore : PyStr → PyStr → Bool
  | [], name => name.isEmpty
  | p :: ps, name =>
    if p = '*' then
      match name with
      | [] => globCore ps []
      | c :: ns => globCore ps (c :: ns) || globCore (p :: ps) ns
    else if p = '?' then
      match name with
      | [] => false
      | _ :: ns => globCore ps ns
    else if p = '[' then
      match splitSet ps with
      | some (stuff, rest) =>
        match name with
        | [] => false
        | c :: ns => setMatch stuff c && globCore rest ns
      | none =>
        match name with
        | [] => false
        | c :: ns => (c = '[') && globCore ps ns
    else
      match name with
      | [] => false
      | c :: ns => (c = p) && globCore ps ns
termination_by p name => (name.length, p.length)

/-- Model of `fnmatch.fnmatch(name, pattern)` on POSIX. -/
def fnmatchL (name pat : PyStr) : Bool := globCore pat name

/-- A USB serial device found during scanning (`models.DiscoveredDevice`). -/
structure DiscoveredDevice where
  path : PyStr
  filename : PyStr
deriving DecidableEq, Repr

/-- Model of `discovery._prefix_variants`: return the pattern together with
its opposite-bootloader-mode variant.  A pattern whose lowercase form starts
with `usb-klipper_` gains a `usb-katapult_` variant (dropping the 12-character
mode marker) and vice versa (13 characters, replaced by `usb-Klipper_`). -/
def modeVariantsL (pattern : PyStr) : List PyStr :=
  let lower := pyLower pattern
  if startsWithL "usb-klipper_".toList lower then
    [pattern, "usb-katapult_".toList ++ pattern.drop 12]
  else if startsWithL "usb-katapult_".toList lower then
    [pattern, "usb-Klipper_".toList ++ pattern.drop 13]
  else
    [pattern]

/-- Model of `discovery.match_devices`: all devices whose filename matches any
mode variant of the glob pattern. -/
def match_devices (pattern : PyStr) (devices : List DiscoveredDevice) :
    List DiscoveredDevice :=
  let variants := modeVariantsL pattern
  devices.filter fun device => variants.any fun v => fnmatchL device.filename v

/-- Model of `discovery.generate_serial_pattern` restricted to its essential
shape: the filename stem (interface suffix stripped) with a `*` appended. -/
def stemPattern (stem : PyStr) : PyStr := stem ++ ['*']

/-- Decimal digits of a natural number, for interpolated messages. -/
def natStr (n : Nat) : PyStr := (toString n).toList

/-- The serial-by-id directory constant (`bootloader.SERIAL_DIR`). -/
def serialDirL : PyStr := "/dev/serial/by-id".toList

/-- Inner loop of phase 2 of `bootloader._poll_for_reenumeration`: the first
filename in the listing whose extracted signature is present and equal to the
original signature. -/
def findSigMatch (origSig : Option (PyStr × PyStr)) : List PyStr → Option PyStr
  | [] => none
  | f :: fs =>
    let sig := extract_device_signature f
    if sig.isSome && origSig.isSome && sig == origSig then some f
    else findSigMatch origSig fs

/-- Phase 2 (reappearance) of `bootloader._poll_for_reenumeration`: scan each
remaining tick for a signature-matching filename; exhausting the ticks is the
deadline timeout. -/
def pollPhase2 (origSig : Option (PyStr × PyStr)) : List (List PyStr) → Option PyStr
  | [] => none
  | fs :: rest =>
    match findSigMatch origSig fs with
    | some f => some (pyJoin serialDirL f)
    | none => pollPhase2 origSig rest

/-- Phase 1 (disappearance) of `bootloader._poll_for_reenumeration`: poll
until the original filename is no longer listed, then hand the remaining
ticks to phase 2; exhausting the ticks with the filename still present is the
deadline timeout and phase 2 is never entered. -/
def pollPhase1 (origFilename : PyStr) (origSig : Option (PyStr × PyStr)) :
    List (List PyStr) → Option PyStr
  | [] => none
  | fs :: rest =>
    if origFilename ∈ fs then pollPhase1 origFilename origSig rest
    else pollPhase2 origSig rest

/-- Model of `bootloader._poll_for_reenumeration`.  `scans` is the sequence of
directory listings the polling loop observes, one per tick, up to the shared
deadline of both phases. -/
def poll_for_reenumeration (originalPath : PyStr) (scans : List (List PyStr)) :
    Option PyStr :=
  let origFilename := basenameL originalPath
  let origSig := extract_device_signature origFilename
  pollPhase1 origFilename origSig scans

/-- How the operation wrapped by the service guard finishes
(`return` / `raise Exception` / `raise KeyboardInterrupt`). -/
inductive BodyOutcome
  | normal
  | exception
  | interrupt
deriving DecidableEq, Repr

/-- Model of `service.ServiceState`. -/
structure ServiceState where
  was_active : Bool
  will_restart : Bool
  restart_succeeded : Option Bool := none
deriving DecidableEq, Repr

/-- Model of `safety.should_restart_service`. -/
def should_restart_service (wasActive : Bool) : Bool := wasActive

/-- Observable outcome of one run of the `klipper_service_stopped` scope:
final `ServiceState`, whether a restart was attempted in the `finally`
block, and which body outcome propagates out of the scope. -/
structure GuardRun where
  state : ServiceState
  restartAttempted : Bool
  propagated : BodyOutcome
deriving DecidableEq, Repr

/-- Result of `klipper_service_stopped`: either the scope ran (stop succeeded
or was skipped), or stopping the service raised before the body started. -/
inductive GuardResult
  | entered (r : GuardRun)
  | stopFailed
deriving DecidableEq, Repr

/-- Model of `service.klipper_service_stopped`.  `wasActive` is the
`_is_service_active()` probe, `stopOk` whether `_stop_klipper` succeeds,
`body` how the wrapped operation exits, and `startOk` the boolean returned by
`_start_klipper` (which catches every exception and never raises).  The
`finally` block attempts a restart exactly when `will_restart` holds and
records its outcome in the yielded state; the body's outcome always
propagates unchanged. -/
def klipper_service_stopped (wasActive stopOk : Bool) (body : BodyOutcome)
    (startOk : Bool) : GuardResult :=
  let willRestart := should_restart_service wasActive
  if wasActive && !stopOk then .stopFailed
  else
    .entered
      { state :=
          { was_active := wasActive
            will_restart := willRestart
            restart_succeeded := if willRestart then some startOk else none }
        restartAttempted := willRestart
        propagated := body }

/-- Model of `models.FlashResult` (elapsed time as an exact rational). -/
structure FlashResult where
  success : Bool
  method : PyStr
  elapsed_seconds : ℚ := 0
  error_message : Option PyStr := none
deriving DecidableEq, Repr

/-- Model of `models.DeviceEntry`, restricted to the fields the flash
orchestration reads. -/
structure DeviceEntry where
  key : PyStr
  name : PyStr
  mcu : PyStr
  serial_pattern : Option PyStr := none
  flash_command : Option PyStr := none
  bootloader_method : Option PyStr := none
  canbus_uuid : Option PyStr := none
  canbus_interface : Option PyStr := none
  uf2_mount_path : Option PyStr := none
  sdcard_board : Option PyStr := none
deriving DecidableEq, Repr

/-- Model of the `DeviceEntry.is_can_device` property. -/
def DeviceEntry.is_can_device (e : DeviceEntry) : Bool := e.canbus_uuid.isSome

/-- Model of `flasher.execute_flash`.  The transfer mechanisms themselves are
abstracted by the oracle `run`, which yields the `FlashResult` of invoking a
given strategy once; the returned list is the trace of strategies actually
invoked, so a configuration rejection is exactly an empty trace.  The branch
structure and every rejection message mirror the source dispatch chain. -/
def execute_flash (entry : DeviceEntry) (run : PyStr → FlashResult) :
    FlashResult × List PyStr :=
  match entry.flash_command with
  | none =>
    ({ success := false, method := "unknown".toList, elapsed_seconds := 0,
       error_message := some "No flash_command configured for device".toList }, [])
  | some fc =>
    if fc = "katapult".toList then (run fc, [fc])
    else if fc = "make_flash".toList then
      if entry.is_can_device then
        ({ success := false, method := "make_flash".toList, elapsed_seconds := 0,
           error_message :=
             some "CAN devices cannot use make_flash; configure Katapult CAN".toList }, [])
      else (run fc, [fc])
    else if fc = "flash_sdcard".toList then (run fc, [fc])
    else if fc = "uf2_mount".toList then (run fc, [fc])
    else if fc = "katapult_can".toList then
      if !entry.is_can_device then
        ({ success := false, method := "katapult_can".toList, elapsed_seconds := 0,
           error_message :=
             some "katapult_can requires a CAN device UUID configuration".toList }, [])
      else if pyStrip (entry.canbus_uuid.getD []) = [] then
        ({ success := false, method := "katapult_can".toList, elapsed_seconds := 0,
           error_message := some "katapult_can requires a non-empty CAN UUID".toList }, [])
      else (run fc, [fc])
    else
      ({ success := false, method := fc, elapsed_seconds := 0,
         error_message := some ("Unknown flash command: ".toList ++ fc) }, [])

/-- Outcome of one `subprocess.run` attempt of the CAN flash tool. -/
inductive CanAttempt
  | exit (code : Int)
  | timedOut
  | osErr (msg : PyStr)
deriving DecidableEq, Repr

/-- `flasher.CAN_RETRY_ATTEMPTS`. -/
def CAN_RETRY_ATTEMPTS : Nat := 3

/-- Retry loop of `flasher.flash_katapult_can`.  `outcomes i` is what attempt
`i` (1-based) would observe; `rem` is the number of loop iterations left.  The
second component counts the attempts actually made: exit code 0 returns
success at once, a non-zero exit or a per-attempt timeout updates the error
and continues, and an `OSError` breaks out of the loop immediately. -/
def canFlashGo (outcomes : Nat → CanAttempt) (timeoutSecs maxRetries : Nat) :
    Nat → Nat → PyStr → FlashResult × Nat
  | _, 0, lastError =>
    ({ success := false, method := "katapult_can".toList,
       error_message := some (lastError ++ " (after ".toList ++ natStr maxRetries
         ++ " attempts)".toList) }, 0)
  | attempt, rem + 1, _ =>
    match outcomes attempt with
    | .exit code =>
      if code = 0 then
        ({ success := true, method := "katapult_can".toList }, 1)
      else
        let r := canFlashGo outcomes timeoutSecs maxRetries (attempt + 1) rem
          "flashtool.py returned non-zero exit code".toList
        (r.1, r.2 + 1)
    | .timedOut =>
      let r := canFlashGo outcomes timeoutSecs maxRetries (attempt + 1) rem
        ("CAN flash timeout (".toList ++ natStr timeoutSecs ++ "s)".toList)
      (r.1, r.2 + 1)
    | .osErr m =>
      ({ success := false, method := "katapult_can".toList,
         error_message := some ("Failed to run flashtool.py: ".toList ++ m
           ++ " (after ".toList ++ natStr maxRetries ++ " attempts)".toList) }, 1)

/-- Model of `flasher.flash_katapult_can`: the flashtool-existence preflight
followed by the retry loop, returning the result and the number of subprocess
attempts made. -/
def flash_katapult_can (flashtoolExists : Bool) (flashtoolPath : PyStr)
    (outcomes : Nat → CanAttempt) (timeoutSecs maxRetries : Nat) :
    FlashResult × Nat :=
  if !flashtoolExists then
    ({ success := false, method := "katapult_can".toList,
       error_message := some ("Katapult flashtool not found: ".toList ++ flashtoolPath) }, 0)
  else canFlashGo outcomes timeoutSecs maxRetries 1 maxRetries []

/-- Does a filename match any mode variant of the serial pattern (the test
used by both `wait_for_device` and the discovery matcher)? -/
def matchesVariants (pat filename : PyStr) : Bool :=
  (modeVariantsL pat).any fun v => fnmatchL filename v

/-- Result of scanning the device list of one `wait_for_device` poll tick. -/
inductive TickStep
  | earlySuccess (path : PyStr)
  | earlyFail (path msg : PyStr)
  | through (foundKat : Bool) (lastKat : Option PyStr)
deriving DecidableEq, Repr

/-- Inner device loop of one `tui.wait_for_device` poll tick: the first
pattern-matching device with the normal-mode prefix returns success, one with
an unrecognized prefix returns a verbatim failure, and bootloader-mode
matches are remembered while scanning on. -/
def tickGo (pat : PyStr) : List DiscoveredDevice → Bool → Option PyStr → TickStep
  | [], foundKat, lastKat => .through foundKat lastKat
  | d :: ds, foundKat, lastKat =>
    if matchesVariants pat d.filename then
      let fl := pyLower d.filename
      if startsWithL "usb-klipper_".toList fl then .earlySuccess d.path
      else if startsWithL "usb-katapult_".toList fl then tickGo pat ds true (some d.path)
      else .earlyFail d.path ("Unexpected device prefix: ".toList ++ d.filename)
    else tickGo pat ds foundKat lastKat

/-- Model of `tui.wait_for_device`.  `scans` is the sequence of device
listings observed until the deadline; the carried `Option` is
`last_katapult_path`, reset after any tick that saw no bootloader-mode match.
Returns `(success, device_path, error_reason)`. -/
def wait_for_device (pat : PyStr) (timeoutSecs : Nat) :
    List (List DiscoveredDevice) → Option PyStr → Bool × Option PyStr × Option PyStr
  | [], lastKat =>
    match lastKat with
    | some p => (false, some p, some "Device in bootloader mode (katapult)".toList)
    | none =>
      (false, none,
        some ("Timeout after ".toList ++ natStr timeoutSecs ++ "s waiting for device".toList))
  | tick :: rest, lastKat =>
    match tickGo pat tick false lastKat with
    | .earlySuccess p => (true, some p, none)
    | .earlyFail p msg => (false, some p, some msg)
    | .through foundKat lastKat2 =>
      wait_for_device pat timeoutSecs rest (if foundKat then lastKat2 else none)

/-- Outcome of the subprocess call issuing a bootloader mode-change command. -/
inductive CmdRun
  | ok
  | timedOut
  | osErr (msg : PyStr)
deriving DecidableEq, Repr

/-- Outcome of the blocking `input()` in the manual bootloader handler. -/
inductive InputRes
  | line
  | cancelled
deriving DecidableEq, Repr

/-- Model of `models.BootloaderResult` (elapsed time omitted: it is stamped
by the dispatcher, not the handlers). -/
structure BootloaderResult where
  success : Bool
  device_path : Option PyStr := none
  error_message : Option PyStr := none
deriving DecidableEq, Repr

/-- `bootloader.TIMEOUT_BOOTLOADER_CMD`. -/
def TIMEOUT_BOOTLOADER_CMD : Nat := 10

/-- Model of `bootloader._enter_usb`: run the flash_usb entry script (its exit
code is ignored), then two-phase poll for re-enumeration. -/
def enter_usb (cmd : CmdRun) (devicePath : PyStr) (scans : List (List PyStr)) :
    BootloaderResult :=
  match cmd with
  | .timedOut =>
    { success := false,
      error_message := some ("USB bootloader entry timed out (".toList
        ++ natStr TIMEOUT_BOOTLOADER_CMD ++ "s)".toList) }
  | .osErr m =>
    { success := false,
      error_message := some ("Failed to run USB bootloader entry: ".toList ++ m) }
  | .ok =>
    match poll_for_reenumeration devicePath scans with
    | none =>
      { success := false,
        error_message := some "Device did not re-enumerate after USB bootloader entry".toList }
    | some p => { success := true, device_path := some p }

/-- Model of `bootloader._enter_serial`: flashtool existence preflight, the
reset command, then two-phase poll for re-enumeration. -/
def enter_serial (flashtoolExists : Bool) (flashtoolPath : PyStr) (cmd : CmdRun)
    (devicePath : PyStr) (scans : List (List PyStr)) : BootloaderResult :=
  if !flashtoolExists then
    { success := false,
      error_message := some ("Katapult flashtool not found: ".toList ++ flashtoolPath) }
  else
    match cmd with
    | .timedOut =>
      { success := false,
        error_message := some ("Serial bootloader entry timed out (".toList
          ++ natStr TIMEOUT_BOOTLOADER_CMD ++ "s)".toList) }
    | .osErr m =>
      { success := false,
        error_message := some ("Failed to run flashtool.py: ".toList ++ m) }
    | .ok =>
      match poll_for_reenumeration devicePath scans with
      | none =>
        { success := false,
          error_message := some "Device did not re-enumerate after serial bootloader entry".toList }
      | some p => { success := true, device_path := some p }

/-- Model of `bootloader._enter_manual`: prompt and block on operator input;
a `uf2_mount` device skips serial re-enumeration entirely and succeeds with
no device path, every other device goes through the two-phase poll. -/
def enter_manual (entry : DeviceEntry) (inputRes : InputRes) (devicePath : PyStr)
    (scans : List (List PyStr)) : BootloaderResult :=
  match inputRes with
  | .cancelled =>
    { success := false, error_message := some "Manual bootloader entry cancelled".toList }
  | .line =>
    if entry.flash_command == some "uf2_mount".toList then
      { success := true, device_path := none }
    else
      match poll_for_reenumeration devicePath scans with
      | none =>
        { success := false,
          error_message := some "Device did not re-enumerate after manual bootloader entry".toList }
      | some p => { success := true, device_path := some p }

/-- Outcome of the post-scope summary section of `flash.cmd_flash`
(lines 1415-1497): process exit code, whether the last-flash timestamp was
recorded, and whether the service-restart failure was reported. -/
structure FlashSummary where
  exitCode : Int
  timestampRecorded : Bool
  restartFailureReported : Bool
deriving DecidableEq, Repr

/-- Model of the summary section of `flash.cmd_flash` after the guarded scope
exits: a reported restart failure returns 1 before the flash outcome is
examined; otherwise a successful and verified flash records the timestamp and
returns 0, and anything else returns 1. -/
def cmdFlashSummary (willRestart : Bool) (restartSucceeded : Option Bool)
    (flashSuccess verified : Bool) : FlashSummary :=
  let restartFailed := willRestart && (restartSucceeded == some false)
  if restartFailed then
    { exitCode := 1, timestampRecorded := false, restartFailureReported := true }
  else if flashSuccess && verified then
    { exitCode := 0, timestampRecorded := true, restartFailureReported := false }
  else
    { exitCode := 1, timestampRecorded := false, restartFailureReported := false }

/-- Is a registration's expanded pattern set ambiguous on the current USB
listing (`flash.cmd_flash_all` duplicate-match detection)? -/
def ambiguousFor (e : DeviceEntry) (usb : List DiscoveredDevice) : Bool :=
  match e.serial_pattern with
  | none => false
  | some pat => decide ((match_devices pat usb).length > 1)

/-- Model of the `ambiguous_keys` set built by `flash.cmd_flash_all` from the
post-stop USB scan: the keys of all registrations whose pattern matches more
than one attached endpoint. -/
def computeAmbiguousKeys (entries : List DeviceEntry) (usb : List DiscoveredDevice) :
    List PyStr :=
  (entries.filter fun e => ambiguousFor e usb).map DeviceEntry.key

/-- Hardware-touching actions of the per-device USB batch pipeline. -/
inductive BatchAction
  | enterBoot
  | runFlash
  | verifyDevice
  | recordTimestamp
deriving DecidableEq, Repr

/-- Observable outcome of one device's USB batch step: the error recorded on
its batch result, whether a skip warning was emitted, and the trace of
hardware-touching actions performed. -/
structure UsbStepOut where
  errorMessage : Option PyStr := none
  warned : Bool := false
  actions : List BatchAction := []
deriving Repr

/-- Model of the ambiguity guard at the head of the per-device USB branch of
`flash.cmd_flash_all`: an ambiguous registration records the duplicate-match
error, warns, and skips with no actions; everything after the guard is
abstracted by `proceed`. -/
def usbFlashStep (entry : DeviceEntry) (ambiguousKeys : List PyStr)
    (proceed : Unit → UsbStepOut) : UsbStepOut :=
  if entry.key ∈ ambiguousKeys then
    { errorMessage := some "Pattern matches multiple connected USB devices".toList,
      warned := true, actions := [] }
  else proceed ()

/-
  Supporting lemmas.
-/

/-- `dropLit` consumed a literal exactly when the string decomposes around it. -/
lemma dropLit_eq_some (l s r : PyStr) : dropLit l s = some r ↔ s = l ++ r := by
  induction l generalizing s with
  | nil => cases s <;> simp [dropLit]
  | cons c l ih =>
    cases s with
    | nil => simp [dropLit]
    | cons a s' =>
      by_cases hac : a = c
      · subst hac; simp [dropLit, ih]
      · simp [dropLit, hac, List.cons_eq_cons]

/-- A literal followed by anything starts with that literal. -/
lemma dropLitSelf (lit r : PyStr) : dropLit lit (lit ++ r) = some r := by
  induction lit with
  | nil => rfl
  | cons c l ih => simp [dropLit, ih]

/-- `startsWithL` form of `dropLitSelf`. -/
lemma startsWithSelf (lit r : PyStr) : startsWithL lit (lit ++ r) = true := by
  simp [startsWithL, dropLitSelf]

/-- A lone `*` pattern matches every name. -/
lemma globStarAll (ns : PyStr) : globCore ['*'] ns = true := by
  induction ns with
  | nil => simp [globCore]
  | cons c ns ih => simp [globCore, ih]

/-- A non-metacharacter at the head of the pattern matches only itself. -/
lemma globConsLit (c : Char) (ps ns : PyStr)
    (h1 : c ≠ '*') (h2 : c ≠ '?') (h3 : c ≠ '[') :
    globCore (c :: ps) (c :: ns) = globCore ps ns := by
  simp only [globCore]
  rw [if_neg (by simpa using h1), if_neg (by simpa using h2), if_neg (by simpa using h3)]
  simp

/-- A literal stem followed by `*` matches the same stem followed by anything. -/
lemma globLitStar (lit rest : PyStr)
    (h : ∀ c ∈ lit, c ≠ '*' ∧ c ≠ '?' ∧ c ≠ '[') :
    globCore (lit ++ ['*']) (lit ++ rest) = true := by
  induction lit with
  | nil => exact globStarAll rest
  | cons c l ih =>
    have hc := h c (List.mem_cons_self _ _)
    rw [List.cons_append, List.cons_append, globConsLit c _ _ hc.1 hc.2.1 hc.2.2]
    exact ih fun x hx => h x (List.mem_cons_of_mem _ hx)

/-- A device whose filename matches a mode variant survives `match_devices`. -/
lemma match_devices_singleton (pat : PyStr) (d : DiscoveredDevice)
    (h : ((modeVariantsL pat).any fun v => fnmatchL d.filename v) = true) :
    match_devices pat [d] = [d] := by
  simp [match_devices, h]

/-- The two mode prefixes are mutually exclusive (they differ at index 5). -/
lemma kat_not_kli (s : PyStr)
    (h : startsWithL "usb-katapult_".toList s = true) :
    startsWithL "usb-klipper_".toList s = false := by
  unfold startsWithL at h
  rcases ho : dropLit "usb-katapult_".toList s with _ | r
  · rw [ho] at h; simp at h
  · have hs := (dropLit_eq_some _ _ _).mp ho
    subst hs
    rfl

/-- Devices that do not match the pattern are skipped by the tick scanner
without changing its state. -/
lemma tickGo_skip (pat : PyStr) (pre rest : List DiscoveredDevice) (fk : Bool)
    (lk : Option PyStr) (h : ∀ d ∈ pre, matchesVariants pat d.filename = false) :
    tickGo pat (pre ++ rest) fk lk = tickGo pat rest fk lk := by
  induction pre with
  | nil => rfl
  | cons d pre ih =>
    have hd := h d (List.mem_cons_self _ _)
    rw [List.cons_append]
    simp only [tickGo, hd]
    simp only [Bool.false_eq_true, if_false]
    exact ih fun x hx => h x (List.mem_cons_of_mem _ hx)

/-- When every matching device in a tick carries the bootloader-mode prefix,
the tick never terminates early: it passes through, remembering a bootloader
path exactly when some device matched. -/
lemma tickGo_allkat (pat : PyStr) (tick : List DiscoveredDevice)
    (h : ∀ d ∈ tick, matchesVariants pat d.filename = true →
      startsWithL "usb-katapult_".toList (pyLower d.filename) = true) :
    ∀ fk lk,
      ((tick.any fun d => matchesVariants pat d.filename) = false →
        tickGo pat tick fk lk = .through fk lk)
      ∧ ((tick.any fun d => matchesVariants pat d.filename) = true →
        ∃ p, tickGo pat tick fk lk = .through true (some p)) := by
  induction tick with
  | nil => intro fk lk; exact ⟨fun _ => rfl, fun hfalse => by simp at hfalse⟩
  | cons d tick ih =>
    intro fk lk
    have hd := h d (List.mem_cons_self _ _)
    have ih' := ih fun x hx hm => h x (List.mem_cons_of_mem _ hx) hm
    by_cases hm : matchesVariants pat d.filename = true
    · have hkat := hd hm
      have hkli := kat_not_kli _ hkat
      constructor
      · intro hany; simp [hm] at hany
      · intro _
        simp only [tickGo, hm, if_true, hkli, Bool.false_eq_true, if_false, hkat]
        cases hany2 : tick.any fun d' => matchesVariants pat d'.filename with
        | false => exact ⟨d.path, (ih' true (some d.path)).1 hany2⟩
        | true => exact (ih' true (some d.path)).2 hany2
    · have hm' : matchesVariants pat d.filename = false := by
        cases hq : matchesVariants pat d.filename
        · rfl
        · exact absurd hq hm
      constructor
      · intro hany
        simp only [List.any_cons, hm', Bool.false_or] at hany
        simp only [tickGo, hm', Bool.false_eq_true, if_false]
        exact (ih' fk lk).1 hany
      · intro hany
        simp only [List.any_cons, hm', Bool.false_or] at hany
        simp only [tickGo, hm', Bool.false_eq_true, if_false]
        exact (ih' fk lk).2 hany

/-- A scan sequence whose matching devices all show the bootloader-mode prefix
drives `wait_for_device` to the deadline and to the bootloader-mode failure,
provided the final tick still shows a matching device. -/
lemma waitAllKat (pat : PyStr) (t : Nat) :
    ∀ (init : List (List DiscoveredDevice)) (fin : List DiscoveredDevice)
      (lastK : Option PyStr),
    (∀ tick ∈ init ++ [fin], ∀ x ∈ tick, matchesVariants pat x.filename = true →
      startsWithL "usb-katapult_".toList (pyLower x.filename) = true) →
    (fin.any fun x => matchesVariants pat x.filename) = true →
    ∃ p, wait_for_device pat t (init ++ [fin]) lastK
      = (false, some p, some "Device in bootloader mode (katapult)".toList) := by
  intro init
  induction init with
  | nil =>
    intro fin lastK hall hany
    have hfin := hall fin (by simp)
    obtain ⟨p, hp⟩ := (tickGo_allkat pat fin hfin false lastK).2 hany
    refine ⟨p, ?_⟩
    simp [List.nil_append, wait_for_device, hp]
  | cons tick init ih =>
    intro fin lastK hall hany
    have htick := hall tick (by simp)
    have hall' : ∀ tk ∈ init ++ [fin], ∀ x ∈ tk, matchesVariants pat x.filename = true →
        startsWithL "usb-katapult_".toList (pyLower x.filename) = true := by
      intro tk htk; exact hall tk (List.mem_cons_of_mem _ htk)
    cases hany1 : tick.any fun x => matchesVariants pat x.filename with
    | false =>
      have hthrough := (tickGo_allkat pat tick htick false lastK).1 hany1
      obtain ⟨p, hp⟩ := ih fin none hall' hany
      refine ⟨p, ?_⟩
      rw [List.cons_append]
      simp only [wait_for_device, hthrough]
      simpa using hp
    | true =>
      obtain ⟨q, hq⟩ := (tickGo_allkat pat tick htick false lastK).2 hany1
      obtain ⟨p, hp⟩ := ih fin (some q) hall' hany
      refine ⟨p, ?_⟩
      rw [List.cons_append]
      simp only [wait_for_device, hq]
      simpa using hp

/-- A filename returned by the reappearance scan is in the listing and its
signature is present and equal to the original. -/
lemma findSigMatch_some (origSig : Option (PyStr × PyStr)) (fs : List PyStr) (f : PyStr)
    (h : findSigMatch origSig fs = some f) :
    f ∈ fs ∧ (extract_device_signature f).isSome = true
      ∧ extract_device_signature f = origSig := by
  induction fs with
  | nil => simp [findSigMatch] at h
  | cons g gs ih =>
    by_cases hc : ((extract_device_signature g).isSome && origSig.isSome
        && (extract_device_signature g == origSig)) = true
    · simp only [findSigMatch, hc, if_true, Option.some.injEq] at h
      subst h
      simp only [Bool.and_eq_true, beq_iff_eq] at hc
      exact ⟨List.mem_cons_self _ _, hc.1.1, hc.2⟩
    · simp only [findSigMatch] at h
      rw [if_neg hc] at h
      obtain ⟨hmem, hsome, heq⟩ := ih h
      exact ⟨List.mem_cons_of_mem _ hmem, hsome, heq⟩

/-- Phase-2 success means a signature-matching filename appeared in a scan. -/
lemma pollPhase2_some (origSig : Option (PyStr × PyStr))
    (scans : List (List PyStr)) (p : PyStr)
    (h : pollPhase2 origSig scans = some p) :
    ∃ fs ∈ scans, ∃ f ∈ fs, (extract_device_signature f).isSome = true
      ∧ extract_device_signature f = origSig ∧ p = pyJoin serialDirL f := by
  induction scans with
  | nil => simp [pollPhase2] at h
  | cons fs rest ih =>
    rcases hf : findSigMatch origSig fs with _ | f
    · simp only [pollPhase2, hf] at h
      obtain ⟨fs', hfs', hrest⟩ := ih h
      exact ⟨fs', List.mem_cons_of_mem _ hfs', hrest⟩
    · simp only [pollPhase2, hf, Option.some.injEq] at h
      obtain ⟨hmem, hsome, heq⟩ := findSigMatch_some _ _ _ hf
      exact ⟨fs, List.mem_cons_self _ _, f, hmem, hsome, heq, h.symm⟩

/-- Phase-1 success lifts the phase-2 evidence to the whole scan sequence. -/
lemma pollPhase1_some (orig : PyStr) (origSig : Option (PyStr × PyStr))
    (scans : List (List PyStr)) (p : PyStr)
    (h : pollPhase1 orig origSig scans = some p) :
    ∃ fs ∈ scans, ∃ f ∈ fs, (extract_device_signature f).isSome = true
      ∧ extract_device_signature f = origSig ∧ p = pyJoin serialDirL f := by
  induction scans with
  | nil => simp [pollPhase1] at h
  | cons fs rest ih =>
    by_cases hm : orig ∈ fs
    · simp only [pollPhase1, if_pos hm] at h
      obtain ⟨fs', hfs', hrest⟩ := ih h
      exact ⟨fs', List.mem_cons_of_mem _ hfs', hrest⟩
    · simp only [pollPhase1, if_neg hm] at h
      obtain ⟨fs', hfs', hrest⟩ := pollPhase2_some _ _ _ h
      exact ⟨fs', List.mem_cons_of_mem _ hfs', hrest⟩

/-- Two-phase polling succeeds only on evidence of a signature-matching
endpoint appearing in some scan. -/
lemma poll_some (path : PyStr) (scans : List (List PyStr)) (p : PyStr)
    (h : poll_for_reenumeration path scans = some p) :
    ∃ fs ∈ scans, ∃ f ∈ fs, (extract_device_signature f).isSome = true
      ∧ extract_device_signature f = extract_device_signature (basenameL path)
      ∧ p = pyJoin serialDirL f :=
  pollPhase1_some _ _ _ _ h

/-
  Claim theorems.
-/

/-- C1: in every run of the `klipper_service_stopped` scope whose body
executed, if the service was active on entry then a restart is attempted on
every exit path (normal return, exception, or interrupt), a failed restart is
recorded in the yielded state as `restart_succeeded = some false`, the body's
outcome propagates unchanged (no exception is raised by the restart path);
and if the service was not active on entry, no restart is attempted. -/
theorem C1_service_guard_restart (wasActive stopOk : Bool) (body : BodyOutcome)
    (startOk : Bool) (r : GuardRun)
    (h : klipper_service_stopped wasActive stopOk body startOk = .entered r) :
    (wasActive = true → r.restartAttempted = true ∧ r.state.restart_succeeded = some startOk
      ∧ (startOk = false → r.state.restart_succeeded = some false))
    ∧ r.propagated = body
    ∧ (wasActive = false → r.restartAttempted = false ∧ r.state.restart_succeeded = none) := by
  cases wasActive <;> cases stopOk <;>
    simp [klipper_service_stopped, should_restart_service] at h <;>
    subst h <;> simp

/-- Witness for C1: a run with an active service whose body raises and whose
restart fails still attempts the restart and records the failure. -/
theorem C1_service_guard_restart_witness :
    (klipper_service_stopped true true BodyOutcome.exception false
      = GuardResult.entered ⟨⟨true, true, some false⟩, true, BodyOutcome.exception⟩)
    ∧ ((⟨⟨true, true, some false⟩, true, BodyOutcome.exception⟩ : GuardRun).restartAttempted = true
        ∧ (⟨⟨true, true, some false⟩, true,
            BodyOutcome.exception⟩ : GuardRun).state.restart_succeeded = some false
        ∧ (⟨⟨true, true, some false⟩, true, BodyOutcome.exception⟩ : GuardRun).propagated
          = BodyOutcome.exception) := by
  have h : klipper_service_stopped true true BodyOutcome.exception false
      = GuardResult.entered ⟨⟨true, true, some false⟩, true, BodyOutcome.exception⟩ := by decide
  have c := C1_service_guard_restart true true BodyOutcome.exception false _ h
  exact ⟨h, (c.1 rfl).1, (c.1 rfl).2.1, c.2.1⟩

/-- C2: when the original filename is present in every scan up to the
deadline, two-phase polling fails with `none` — the reappearance phase is
never entered, so a matching device signature observed while the original
filename is still present never yields success. -/
theorem C2_two_phase_monotonic (originalPath : PyStr) (scans : List (List PyStr))
    (h : ∀ s ∈ scans, basenameL originalPath ∈ s) :
    poll_for_reenumeration originalPath scans = none := by
  unfold poll_for_reenumeration
  induction scans with
  | nil => rfl
  | cons fs rest ih =>
    have hm := h fs (List.mem_cons_self _ _)
    simp only [pollPhase1, if_pos hm]
    exact ih fun s hs => h s (List.mem_cons_of_mem _ hs)

/-- Witness for C2: every scan lists the original filename together with a
filename whose signature matches it, and the poll still returns `none`. -/
theorem C2_two_phase_monotonic_witness :
    poll_for_reenumeration "/dev/serial/by-id/usb-Klipper_rp2040_AA-if00".toList
      [["usb-Klipper_rp2040_AA-if00".toList, "usb-katapult_rp2040_AA-if00".toList],
       ["usb-Klipper_rp2040_AA-if00".toList, "usb-katapult_rp2040_AA-if00".toList]] = none :=
  C2_two_phase_monotonic _ _ (by decide)

/-- C3 counterexample: with a successful and verified flash but a failed
service restart, the summary section of `cmd_flash` returns exit code 1 and
does not record the last-flash timestamp — the claim's success exit code
(0) and timestamp recording do not happen. -/
theorem C3_restart_failure_counterexample :
    cmdFlashSummary true (some false) true true
      = { exitCode := 1, timestampRecorded := false, restartFailureReported := true }
    ∧ (1 : Int) ≠ 0 := by decide

/-- C3 amended: when the flash transfer and verification succeed, `cmd_flash`
records the last-flash timestamp and returns the success exit code only if
the service restart did not fail; a failed restart is reported separately but
takes precedence: `cmd_flash` then returns exit code 1 and skips the
timestamp recording. -/
theorem C3_restart_failure_precedence (w : Bool) (rs : Option Bool) (fs v : Bool) :
    (fs = true → v = true → ¬(w = true ∧ rs = some false) →
      cmdFlashSummary w rs fs v
        = { exitCode := 0, timestampRecorded := true, restartFailureReported := false })
    ∧ (w = true → rs = some false →
      cmdFlashSummary w rs fs v
        = { exitCode := 1, timestampRecorded := false, restartFailureReported := true }) := by
  refine ⟨fun h1 h2 h3 => ?_, fun h1 h2 => ?_⟩
  · subst h1; subst h2
    have hrf : (w && (rs == some false)) = false := by
      cases w
      · rfl
      · cases hrs : rs == some false
        · rfl
        · exact absurd ⟨rfl, by simpa [beq_iff_eq] using hrs⟩ h3
    simp [cmdFlashSummary, hrf]
  · subst h1; subst h2
    simp [cmdFlashSummary]

/-- Witness for C3 amended: a successful restart yields exit code 0 with the
timestamp recorded; a failed restart yields exit code 1 without it. -/
theorem C3_restart_failure_precedence_witness :
    cmdFlashSummary true (some true) true true
      = { exitCode := 0, timestampRecorded := true, restartFailureReported := false }
    ∧ cmdFlashSummary true (some false) true true
      = { exitCode := 1, timestampRecorded := false, restartFailureReported := true } :=
  ⟨(C3_restart_failure_precedence true (some true) true true).1 rfl rfl (by decide),
   (C3_restart_failure_precedence true (some false) true true).2 rfl rfl⟩

/-- C4: the flash dispatcher invokes at most one transfer strategy and
passes its result through unchanged (no fallback after a failure); an unset
flash command, an unrecognized tag, or `make_flash` on a CAN device is
rejected with a failed result, zero elapsed time, and no strategy invoked. -/
theorem C4_dispatch_no_fallback (entry : DeviceEntry) (run : PyStr → FlashResult) :
    ((execute_flash entry run).2.length ≤ 1
      ∧ ∀ m, (execute_flash entry run).2 = [m] → (execute_flash entry run).1 = run m)
    ∧ (entry.flash_command = none →
        (execute_flash entry run).1.success = false
        ∧ (execute_flash entry run).1.elapsed_seconds = 0
        ∧ (execute_flash entry run).2 = [])
    ∧ (∀ fc, entry.flash_command = some fc →
        fc ≠ "katapult".toList → fc ≠ "katapult_can".toList → fc ≠ "make_flash".toList →
        fc ≠ "flash_sdcard".toList → fc ≠ "uf2_mount".toList →
        (execute_flash entry run).1.success = false
        ∧ (execute_flash entry run).1.elapsed_seconds = 0
        ∧ (execute_flash entry run).2 = [])
    ∧ (entry.flash_command = some "make_flash".toList → entry.is_can_device = true →
        (execute_flash entry run).1.success = false
        ∧ (execute_flash entry run).1.elapsed_seconds = 0
        ∧ (execute_flash entry run).2 = []) := by
  unfold execute_flash
  split
  case _ hnone =>
    refine ⟨⟨by simp, fun m hm => by simp at hm⟩, fun _ => ⟨rfl, rfl, rfl⟩, ?_, ?_⟩
    · intro fc hfc; rw [hnone] at hfc; exact absurd hfc (by simp)
    · intro hfc; rw [hnone] at hfc; exact absurd hfc (by simp)
  case _ fc hsome =>
    have hinj : ∀ fc', entry.flash_command = some fc' → fc = fc' := by
      intro fc' h; rw [hsome] at h; injection h
    split
    case isTrue h1 =>
      refine ⟨⟨by simp, fun m hm => by simp at hm; rw [hm]⟩, ?_, ?_, ?_⟩
      · intro hn; rw [hsome] at hn; exact absurd hn (by simp)
      · intro fc' hfc' hne _ _ _ _
        exact absurd ((hinj fc' hfc').symm.trans h1) hne
      · intro hmf _
        exact absurd (h1.symm.trans (hinj _ hmf)) (by decide)
    case isFalse h1 =>
      split
      case isTrue h2 =>
        split
        case isTrue hcan =>
          refine ⟨⟨by simp, fun m hm => by simp at hm⟩, ?_, ?_, ?_⟩
          · intro hn; rw [hsome] at hn; exact absurd hn (by simp)
          · intro fc' hfc' _ _ hne _ _
            exact absurd ((hinj fc' hfc').symm.trans h2) hne
          · intro _ _; exact ⟨rfl, rfl, rfl⟩
        case isFalse hcan =>
          refine ⟨⟨by simp, fun m hm => by simp at hm; rw [hm]⟩, ?_, ?_, ?_⟩
          · intro hn; rw [hsome] at hn; exact absurd hn (by simp)
          · intro fc' hfc' _ _ hne _ _
            exact absurd ((hinj fc' hfc').symm.trans h2) hne
          · intro _ hc; exact absurd hc (by simpa using hcan)
      case isFalse h2 =>
        split
        case isTrue h3 =>
          refine ⟨⟨by simp, fun m hm => by simp at hm; rw [hm]⟩, ?_, ?_, ?_⟩
          · intro hn; rw [hsome] at hn; exact absurd hn (by simp)
          · intro fc' hfc' _ _ _ hne _
            exact absurd ((hinj fc' hfc').symm.trans h3) hne
          · intro hmf _; exact absurd (h3.symm.trans (hinj _ hmf)) (by decide)
        case isFalse h3 =>
          split
          case isTrue h4 =>
            refine ⟨⟨by simp, fun m hm => by simp at hm; rw [hm]⟩, ?_, ?_, ?_⟩
            · intro hn; rw [hsome] at hn; exact absurd hn (by simp)
            · intro fc' hfc' _ _ _ _ hne
              exact absurd ((hinj fc' hfc').symm.trans h4) hne
            · intro hmf _; exact absurd (h4.symm.trans (hinj _ hmf)) (by decide)
          case isFalse h4 =>
            split
            case isTrue h5 =>
              split
              case isTrue hncan =>
                refine ⟨⟨by simp, fun m hm => by simp at hm⟩, ?_, ?_, ?_⟩
                · intro hn; rw [hsome] at hn; exact absurd hn (by simp)
                · intro fc' hfc' _ hne _ _ _
                  exact absurd ((hinj fc' hfc').symm.trans h5) hne
                · intro hmf _; exact absurd (h5.symm.trans (hinj _ hmf)) (by decide)
              case isFalse hncan =>
                split
                case isTrue huuid =>
                  refine ⟨⟨by simp, fun m hm => by simp at hm⟩, ?_, ?_, ?_⟩
                  · intro hn; rw [hsome] at hn; exact absurd hn (by simp)
                  · intro fc' hfc' _ hne _ _ _
                    exact absurd ((hinj fc' hfc').symm.trans h5) hne
                  · intro hmf _; exact absurd (h5.symm.trans (hinj _ hmf)) (by decide)
                case isFalse huuid =>
                  refine ⟨⟨by simp, fun m hm => by simp at hm; rw [hm]⟩, ?_, ?_, ?_⟩
                  · intro hn; rw [hsome] at hn; exact absurd hn (by simp)
                  · intro fc' hfc' _ hne _ _ _
                    exact absurd ((hinj fc' hfc').symm.trans h5) hne
                  · intro hmf _; exact absurd (h5.symm.trans (hinj _ hmf)) (by decide)
            case isFalse h5 =>
              refine ⟨⟨by simp, fun m hm => by simp at hm⟩, ?_, ?_, ?_⟩
              · intro hn; rw [hsome] at hn; exact absurd hn (by simp)
              · intro _ _ _ _ _ _ _; exact ⟨rfl, rfl, rfl⟩
              · intro hmf _; exact absurd (hinj _ hmf) h2

/-- Witness for C4: an unrecognized tag `bogus` is rejected with no strategy
invoked and zero elapsed time, and `make_flash` on a CAN device is rejected
with no strategy invoked. -/
theorem C4_dispatch_no_fallback_witness :
    ((execute_flash
        ⟨"k".toList, "n".toList, "m".toList, none, some "bogus".toList,
          none, none, none, none, none⟩
        (fun m => ⟨true, m, 0, none⟩)).1.success = false
      ∧ (execute_flash
          ⟨"k".toList, "n".toList, "m".toList, none, some "bogus".toList,
            none, none, none, none, none⟩
          (fun m => ⟨true, m, 0, none⟩)).1.elapsed_seconds = 0
      ∧ (execute_flash
          ⟨"k".toList, "n".toList, "m".toList, none, some "bogus".toList,
            none, none, none, none, none⟩
          (fun m => ⟨true, m, 0, none⟩)).2 = [])
    ∧ ((execute_flash
        ⟨"k".toList, "n".toList, "m".toList, none, some "make_flash".toList,
          none, some "123456789012".toList, none, none, none⟩
        (fun m => ⟨true, m, 0, none⟩)).1.success = false
      ∧ (execute_flash
          ⟨"k".toList, "n".toList, "m".toList, none, some "make_flash".toList,
            none, some "123456789012".toList, none, none, none⟩
          (fun m => ⟨true, m, 0, none⟩)).2 = []) := by
  have c1 := C4_dispatch_no_fallback
    ⟨"k".toList, "n".toList, "m".toList, none, some "bogus".toList,
      none, none, none, none, none⟩ (fun m => ⟨true, m, 0, none⟩)
  have c2 := C4_dispatch_no_fallback
    ⟨"k".toList, "n".toList, "m".toList, none, some "make_flash".toList,
      none, some "123456789012".toList, none, none, none⟩ (fun m => ⟨true, m, 0, none⟩)
  refine ⟨?_, ?_⟩
  · exact c1.2.2.1 "bogus".toList rfl (by decide) (by decide) (by decide) (by decide) (by decide)
  · exact ⟨(c2.2.2.2 rfl rfl).1, (c2.2.2.2 rfl rfl).2.2⟩

/-- C5: matching is prefix-agnostic in both directions — a glob pattern built
from a board's filename in one prefix family (the stem with `*` appended)
makes `match_devices` match the same board's filename in the other prefix
family, identical after the prefix, and vice versa.  The stem is restricted
to glob-transparent characters, as in real `/dev/serial/by-id` names. -/
theorem C5_prefix_agnostic_match (stem tail path1 path2 : PyStr)
    (hstem : ∀ c ∈ stem, c ≠ '*' ∧ c ≠ '?' ∧ c ≠ '[') :
    match_devices ("usb-Klipper_".toList ++ (stem ++ ['*']))
        [⟨path1, "usb-katapult_".toList ++ (stem ++ tail)⟩]
      = [⟨path1, "usb-katapult_".toList ++ (stem ++ tail)⟩]
    ∧ match_devices ("usb-katapult_".toList ++ (stem ++ ['*']))
        [⟨path2, "usb-Klipper_".toList ++ (stem ++ tail)⟩]
      = [⟨path2, "usb-Klipper_".toList ++ (stem ++ tail)⟩] := by
  have hmetaKat : ∀ c ∈ "usb-katapult_".toList ++ stem, c ≠ '*' ∧ c ≠ '?' ∧ c ≠ '[' := by
    intro c hc
    rcases List.mem_append.mp hc with h | h
    · fin_cases h <;> refine ⟨by decide, by decide, by decide⟩
    · exact hstem c h
  have hmetaKli : ∀ c ∈ "usb-Klipper_".toList ++ stem, c ≠ '*' ∧ c ≠ '?' ∧ c ≠ '[' := by
    intro c hc
    rcases List.mem_append.mp hc with h | h
    · fin_cases h <;> refine ⟨by decide, by decide, by decide⟩
    · exact hstem c h
  constructor
  · have hlow : pyLower ("usb-Klipper_".toList ++ (stem ++ ['*']))
        = "usb-klipper_".toList ++ pyLower (stem ++ ['*']) := by
      show List.map _ _ = _
      rw [List.map_append]
      rw [show List.map Char.toLower "usb-Klipper_".toList = "usb-klipper_".toList from by decide]
      rfl
    have hcond : startsWithL "usb-klipper_".toList
        (pyLower ("usb-Klipper_".toList ++ (stem ++ ['*']))) = true := by
      rw [hlow]; exact startsWithSelf _ _
    have hdrop : ("usb-Klipper_".toList ++ (stem ++ ['*'])).drop 12 = stem ++ ['*'] := by
      rw [show (12 : Nat) = ("usb-Klipper_".toList).length from by decide, List.drop_left]
    have hv : modeVariantsL ("usb-Klipper_".toList ++ (stem ++ ['*']))
        = ["usb-Klipper_".toList ++ (stem ++ ['*']),
           "usb-katapult_".toList ++ (stem ++ ['*'])] := by
      simp only [modeVariantsL, hcond, if_true, hdrop]
    have hm : fnmatchL ("usb-katapult_".toList ++ (stem ++ tail))
        ("usb-katapult_".toList ++ (stem ++ ['*'])) = true := by
      show globCore _ _ = true
      rw [← List.append_assoc, ← List.append_assoc]
      exact globLitStar _ _ hmetaKat
    refine match_devices_singleton _ _ ?_
    rw [hv]
    simp only [List.any_cons, List.any_nil, hm, Bool.or_true, Bool.true_or, Bool.or_false]
  · have hlow : pyLower ("usb-katapult_".toList ++ (stem ++ ['*']))
        = "usb-katapult_".toList ++ pyLower (stem ++ ['*']) := by
      show List.map _ _ = _
      rw [List.map_append]
      rw [show List.map Char.toLower "usb-katapult_".toList = "usb-katapult_".toList from by decide]
      rfl
    have hcond1 : startsWithL "usb-klipper_".toList
        (pyLower ("usb-katapult_".toList ++ (stem ++ ['*']))) = false := by
      rw [hlow]; rfl
    have hcond2 : startsWithL "usb-katapult_".toList
        (pyLower ("usb-katapult_".toList ++ (stem ++ ['*']))) = true := by
      rw [hlow]; exact startsWithSelf _ _
    have hdrop : ("usb-katapult_".toList ++ (stem ++ ['*'])).drop 13 = stem ++ ['*'] := by
      rw [show (13 : Nat) = ("usb-katapult_".toList).length from by decide, List.drop_left]
    have hv : modeVariantsL ("usb-katapult_".toList ++ (stem ++ ['*']))
        = ["usb-katapult_".toList ++ (stem ++ ['*']),
           "usb-Klipper_".toList ++ (stem ++ ['*'])] := by
      simp only [modeVariantsL, hcond1, hcond2, if_true, Bool.false_eq_true, if_false, hdrop]
    have hm : fnmatchL ("usb-Klipper_".toList ++ (stem ++ tail))
        ("usb-Klipper_".toList ++ (stem ++ ['*'])) = true := by
      show globCore _ _ = true
      rw [← List.append_assoc, ← List.append_assoc]
      exact globLitStar _ _ hmetaKli
    refine match_devices_singleton _ _ ?_
    rw [hv]
    simp only [List.any_cons, List.any_nil, hm, Bool.or_true, Bool.true_or, Bool.or_false]

/-- Witness for C5: a pattern built from a Klipper-mode filename matches the
katapult-mode filename of the same board, and vice versa. -/
theorem C5_prefix_agnostic_match_witness :
    match_devices ("usb-Klipper_".toList ++ ("rp2040_303030".toList ++ ['*']))
        [⟨"p1".toList, "usb-katapult_".toList ++ ("rp2040_303030".toList ++ "-if00".toList)⟩]
      = [⟨"p1".toList, "usb-katapult_".toList ++ ("rp2040_303030".toList ++ "-if00".toList)⟩]
    ∧ match_devices ("usb-katapult_".toList ++ ("rp2040_303030".toList ++ ['*']))
        [⟨"p2".toList, "usb-Klipper_".toList ++ ("rp2040_303030".toList ++ "-if00".toList)⟩]
      = [⟨"p2".toList, "usb-Klipper_".toList ++ ("rp2040_303030".toList ++ "-if00".toList)⟩] :=
  C5_prefix_agnostic_match "rp2040_303030".toList "-if00".toList "p1".toList "p2".toList
    (by decide)

/-- C6: a registration whose expanded pattern set matches more than one
attached endpoint is put in the batch sequencer's ambiguous set, and its USB
batch step records the duplicate-match error, warns, and skips — no
bootloader entry, flash, or other action is attempted and no match is
auto-selected, whatever the rest of the pipeline would have done. -/
theorem C6_ambiguous_registration_skipped (entries : List DeviceEntry)
    (usb : List DiscoveredDevice) (e : DeviceEntry) (pat : PyStr)
    (proceed : Unit → UsbStepOut)
    (he : e ∈ entries) (hp : e.serial_pattern = some pat)
    (hmulti : 1 < (match_devices pat usb).length) :
    e.key ∈ computeAmbiguousKeys entries usb
    ∧ usbFlashStep e (computeAmbiguousKeys entries usb) proceed
        = { errorMessage := some "Pattern matches multiple connected USB devices".toList,
            warned := true, actions := [] } := by
  have hamb : ambiguousFor e usb = true := by
    unfold ambiguousFor; rw [hp]; exact decide_eq_true hmulti
  have hmem : e.key ∈ computeAmbiguousKeys entries usb := by
    unfold computeAmbiguousKeys
    exact List.mem_map_of_mem _ (List.mem_filter.mpr ⟨he, hamb⟩)
  exact ⟨hmem, by unfold usbFlashStep; rw [if_pos hmem]⟩

/-- Witness for C6: one registration whose pattern matches two attached
endpoints (one per prefix family) is marked ambiguous and its batch step
performs no actions. -/
theorem C6_ambiguous_registration_skipped_witness :
    "octo".toList ∈ computeAmbiguousKeys
      [⟨"octo".toList, "Octopus".toList, "rp2040".toList,
        some "usb-Klipper_rp2040_AA*".toList, none, none, none, none, none, none⟩]
      [⟨"/dev/serial/by-id/usb-Klipper_rp2040_AA1-if00".toList,
        "usb-Klipper_rp2040_AA1-if00".toList⟩,
       ⟨"/dev/serial/by-id/usb-katapult_rp2040_AA2-if00".toList,
        "usb-katapult_rp2040_AA2-if00".toList⟩]
    ∧ usbFlashStep
        ⟨"octo".toList, "Octopus".toList, "rp2040".toList,
          some "usb-Klipper_rp2040_AA*".toList, none, none, none, none, none, none⟩
        (computeAmbiguousKeys
          [⟨"octo".toList, "Octopus".toList, "rp2040".toList,
            some "usb-Klipper_rp2040_AA*".toList, none, none, none, none, none, none⟩]
          [⟨"/dev/serial/by-id/usb-Klipper_rp2040_AA1-if00".toList,
            "usb-Klipper_rp2040_AA1-if00".toList⟩,
           ⟨"/dev/serial/by-id/usb-katapult_rp2040_AA2-if00".toList,
            "usb-katapult_rp2040_AA2-if00".toList⟩])
        (fun _ => { errorMessage := none, warned := false, actions := [BatchAction.runFlash] })
      = { errorMessage := some "Pattern matches multiple connected USB devices".toList,
          warned := true, actions := [] } := by
  have hmulti : 1 < (match_devices "usb-Klipper_rp2040_AA*".toList
      [⟨"/dev/serial/by-id/usb-Klipper_rp2040_AA1-if00".toList,
        "usb-Klipper_rp2040_AA1-if00".toList⟩,
       ⟨"/dev/serial/by-id/usb-katapult_rp2040_AA2-if00".toList,
        "usb-katapult_rp2040_AA2-if00".toList⟩]).length := by
    simp [match_devices, modeVariantsL, fnmatchL, globCore, splitSet, splitSetCore,
      setMatch, setItems, startsWithL, dropLit, pyLower]
  exact C6_ambiguous_registration_skipped _ _ _ _ _ (List.mem_cons_self _ _) rfl hmulti

/-- C7: the CAN flash retry loop makes at most 3 attempts; a zero exit
returns success at once with no further attempts, every non-zero exit is
followed by another attempt until the cap, and a process-launch failure
(OSError) terminates the loop immediately with no further attempts. -/
theorem C7_can_retry_policy (outcomes : Nat → CanAttempt) (p : PyStr) (tsec : Nat) :
    (flash_katapult_can true p outcomes tsec CAN_RETRY_ATTEMPTS).2 ≤ 3
    ∧ (outcomes 1 = .exit 0 →
        (flash_katapult_can true p outcomes tsec CAN_RETRY_ATTEMPTS).1.success = true
        ∧ (flash_katapult_can true p outcomes tsec CAN_RETRY_ATTEMPTS).2 = 1)
    ∧ (∀ c, outcomes 1 = .exit c → c ≠ 0 →
        2 ≤ (flash_katapult_can true p outcomes tsec CAN_RETRY_ATTEMPTS).2)
    ∧ (∀ c c2, outcomes 1 = .exit c → c ≠ 0 → outcomes 2 = .exit c2 → c2 ≠ 0 →
        (flash_katapult_can true p outcomes tsec CAN_RETRY_ATTEMPTS).2 = 3)
    ∧ (∀ c, outcomes 1 = .exit c → c ≠ 0 → outcomes 2 = .exit 0 →
        (flash_katapult_can true p outcomes tsec CAN_RETRY_ATTEMPTS).1.success = true
        ∧ (flash_katapult_can true p outcomes tsec CAN_RETRY_ATTEMPTS).2 = 2)
    ∧ (∀ m, outcomes 1 = .osErr m →
        (flash_katapult_can true p outcomes tsec CAN_RETRY_ATTEMPTS).2 = 1
        ∧ (flash_katapult_can true p outcomes tsec CAN_RETRY_ATTEMPTS).1.success = false)
    ∧ (∀ c m, outcomes 1 = .exit c → c ≠ 0 → outcomes 2 = .osErr m →
        (flash_katapult_can true p outcomes tsec CAN_RETRY_ATTEMPTS).2 = 2
        ∧ (flash_katapult_can true p outcomes tsec CAN_RETRY_ATTEMPTS).1.success = false)
    ∧ (∀ c c2 c3, outcomes 1 = .exit c → c ≠ 0 → outcomes 2 = .exit c2 → c2 ≠ 0 →
        outcomes 3 = .exit c3 → c3 ≠ 0 →
        (flash_katapult_can true p outcomes tsec CAN_RETRY_ATTEMPTS).1.success = false) := by
  simp only [flash_katapult_can, CAN_RETRY_ATTEMPTS, Bool.not_true, Bool.false_eq_true,
    if_false]
  rcases h1 : outcomes 1 with c1 | _ | m1
  · by_cases hc1 : c1 = 0
    · subst hc1
      simp [canFlashGo, h1]
      repeat' apply And.intro
      all_goals intros; omega
    · rcases h2 : outcomes 2 with c2 | _ | m2
      · by_cases hc2 : c2 = 0
        · subst hc2
          simp [canFlashGo, h1, h2, hc1]
          intros; omega
        · rcases h3 : outcomes 3 with c3 | _ | m3
          · by_cases hc3 : c3 = 0
            · subst hc3; simp [canFlashGo, h1, h2, h3, hc1, hc2]; intros; omega
            · simp [canFlashGo, h1, h2, h3, hc1, hc2, hc3]
          · simp [canFlashGo, h1, h2, h3, hc1, hc2]
          · simp [canFlashGo, h1, h2, h3, hc1, hc2]
      · rcases h3 : outcomes 3 with c3 | _ | m3 <;>
          [skip; skip; skip] <;> first
          | (by_cases hc3 : c3 = 0
             · subst hc3; simp [canFlashGo, h1, h2, h3, hc1]
             · simp [canFlashGo, h1, h2, h3, hc1, hc3])
          | simp [canFlashGo, h1, h2, h3, hc1]
      · simp [canFlashGo, h1, h2, hc1]
  · rcases h2 : outcomes 2 with c2 | _ | m2
    · by_cases hc2 : c2 = 0
      · subst hc2; simp [canFlashGo, h1, h2]
      · rcases h3 : outcomes 3 with c3 | _ | m3
        · by_cases hc3 : c3 = 0
          · subst hc3; simp [canFlashGo, h1, h2, h3, hc2]
          · simp [canFlashGo, h1, h2, h3, hc2, hc3]
        · simp [canFlashGo, h1, h2, h3, hc2]
        · simp [canFlashGo, h1, h2, h3, hc2]
    · rcases h3 : outcomes 3 with c3 | _ | m3
      · by_cases hc3 : c3 = 0
        · subst hc3; simp [canFlashGo, h1, h2, h3]
        · simp [canFlashGo, h1, h2, h3, hc3]
      · simp [canFlashGo, h1, h2, h3]
      · simp [canFlashGo, h1, h2, h3]
    · simp [canFlashGo, h1, h2]
  · simp [canFlashGo, h1]

/-- Witness for C7: a non-zero exit on attempt 1 followed by a zero exit on
attempt 2 succeeds after exactly two attempts. -/
theorem C7_can_retry_policy_witness :
    (flash_katapult_can true "ft".toList
      (fun i => if i = 1 then CanAttempt.exit 1 else if i = 2 then CanAttempt.exit 0
        else CanAttempt.exit 5) 120 CAN_RETRY_ATTEMPTS).1.success = true
    ∧ (flash_katapult_can true "ft".toList
      (fun i => if i = 1 then CanAttempt.exit 1 else if i = 2 then CanAttempt.exit 0
        else CanAttempt.exit 5) 120 CAN_RETRY_ATTEMPTS).2 = 2 := by
  have c := C7_can_retry_policy
    (fun i => if i = 1 then CanAttempt.exit 1 else if i = 2 then CanAttempt.exit 0
      else CanAttempt.exit 5) "ft".toList 120
  exact c.2.2.2.2.1 1 (by decide) (by decide) (by decide)

/-- C10: a per-attempt subprocess timeout behaves like a non-zero exit, not
like a launch failure — it counts against the 3-attempt cap and the next
attempt proceeds (and may succeed); an OSError after a timeout still ends
the loop at that attempt. -/
theorem C10_timeout_counts_as_attempt (outcomes : Nat → CanAttempt) (p : PyStr)
    (tsec : Nat) :
    (outcomes 1 = .timedOut →
        2 ≤ (flash_katapult_can true p outcomes tsec CAN_RETRY_ATTEMPTS).2)
    ∧ (outcomes 1 = .timedOut → outcomes 2 = .timedOut →
        (flash_katapult_can true p outcomes tsec CAN_RETRY_ATTEMPTS).2 = 3)
    ∧ (outcomes 1 = .timedOut → outcomes 2 = .exit 0 →
        (flash_katapult_can true p outcomes tsec CAN_RETRY_ATTEMPTS).1.success = true
        ∧ (flash_katapult_can true p outcomes tsec CAN_RETRY_ATTEMPTS).2 = 2)
    ∧ (∀ m, outcomes 1 = .timedOut → outcomes 2 = .osErr m →
        (flash_katapult_can true p outcomes tsec CAN_RETRY_ATTEMPTS).2 = 2
        ∧ (flash_katapult_can true p outcomes tsec CAN_RETRY_ATTEMPTS).1.success = false) := by
  simp only [flash_katapult_can, CAN_RETRY_ATTEMPTS, Bool.not_true, Bool.false_eq_true,
    if_false]
  rcases h1 : outcomes 1 with c1 | _ | m1
  · simp [h1]
  · rcases h2 : outcomes 2 with c2 | _ | m2
    · by_cases hc2 : c2 = 0
      · subst hc2; simp [canFlashGo, h1, h2]
      · rcases h3 : outcomes 3 with c3 | _ | m3
        · by_cases hc3 : c3 = 0
          · subst hc3; simp [canFlashGo, h1, h2, h3, hc2]
          · simp [canFlashGo, h1, h2, h3, hc2, hc3]
        · simp [canFlashGo, h1, h2, h3, hc2]
        · simp [canFlashGo, h1, h2, h3, hc2]
    · rcases h3 : outcomes 3 with c3 | _ | m3
      · by_cases hc3 : c3 = 0
        · subst hc3; simp [canFlashGo, h1, h2, h3]
        · simp [canFlashGo, h1, h2, h3, hc3]
      · simp [canFlashGo, h1, h2, h3]
      · simp [canFlashGo, h1, h2, h3]
    · simp [canFlashGo, h1, h2]
  · simp [h1]

/-- Witness for C10: a timeout on attempt 1 followed by a zero exit on
attempt 2 succeeds after exactly two attempts. -/
theorem C10_timeout_counts_as_attempt_witness :
    (flash_katapult_can true "ft".toList
      (fun i => if i = 1 then CanAttempt.timedOut else CanAttempt.exit 0)
      120 CAN_RETRY_ATTEMPTS).1.success = true
    ∧ (flash_katapult_can true "ft".toList
      (fun i => if i = 1 then CanAttempt.timedOut else CanAttempt.exit 0)
      120 CAN_RETRY_ATTEMPTS).2 = 2 := by
  have c := C10_timeout_counts_as_attempt
    (fun i => if i = 1 then CanAttempt.timedOut else CanAttempt.exit 0) "ft".toList 120
  exact c.2.2.1 (by decide) (by decide)

/-- C8: in post-flash USB verification, a pattern-matching endpoint with the
normal-mode (`usb-klipper_`) prefix terminates the poll immediately with
success and that endpoint's path; when every matching endpoint observed up to
the deadline has the bootloader-mode (`usb-katapult_`) prefix, polling never
terminates early and only at the deadline fails with the bootloader-mode
reason; and a matching endpoint with any other prefix terminates immediately
with a failure reporting that filename verbatim, a message distinct from the
plain timeout failure. -/
theorem C8_postflash_prefix_behavior (pat : PyStr) (t : Nat)
    (pre post : List DiscoveredDevice) (d : DiscoveredDevice)
    (rest : List (List DiscoveredDevice)) (lastK : Option PyStr)
    (init : List (List DiscoveredDevice)) (fin : List DiscoveredDevice) :
    ((∀ x ∈ pre, matchesVariants pat x.filename = false) →
      matchesVariants pat d.filename = true →
      startsWithL "usb-klipper_".toList (pyLower d.filename) = true →
      wait_for_device pat t ((pre ++ d :: post) :: rest) lastK = (true, some d.path, none))
    ∧ ((∀ tick ∈ init ++ [fin], ∀ x ∈ tick, matchesVariants pat x.filename = true →
        startsWithL "usb-katapult_".toList (pyLower x.filename) = true) →
      (fin.any fun x => matchesVariants pat x.filename) = true →
      ∃ p, wait_for_device pat t (init ++ [fin]) lastK
        = (false, some p, some "Device in bootloader mode (katapult)".toList))
    ∧ ((∀ x ∈ pre, matchesVariants pat x.filename = false) →
      matchesVariants pat d.filename = true →
      startsWithL "usb-klipper_".toList (pyLower d.filename) = false →
      startsWithL "usb-katapult_".toList (pyLower d.filename) = false →
      wait_for_device pat t ((pre ++ d :: post) :: rest) lastK
        = (false, some d.path, some ("Unexpected device prefix: ".toList ++ d.filename))
      ∧ ∀ t2 : Nat, ("Unexpected device prefix: ".toList ++ d.filename)
          ≠ ("Timeout after ".toList ++ natStr t2 ++ "s waiting for device".toList)) := by
  refine ⟨?_, ?_, ?_⟩
  · intro hpre hm hkli
    have htick : tickGo pat (pre ++ d :: post) false lastK = .earlySuccess d.path := by
      rw [tickGo_skip pat pre _ _ _ hpre]
      simp only [tickGo, hm, if_true, hkli]
    simp only [wait_for_device, htick]
  · intro hall hany
    exact waitAllKat pat t init fin lastK hall hany
  · intro hpre hm hkli hkat
    constructor
    · have htick : tickGo pat (pre ++ d :: post) false lastK
          = .earlyFail d.path ("Unexpected device prefix: ".toList ++ d.filename) := by
        rw [tickGo_skip pat pre _ _ _ hpre]
        simp only [tickGo, hm, if_true, hkli, hkat, Bool.false_eq_true, if_false]
      simp only [wait_for_device, htick]
    · intro t2 heq
      have e1 : "Unexpected device prefix: ".toList
          = 'U' :: "nexpected device prefix: ".toList := by decide
      have e2 : "Timeout after ".toList = 'T' :: "imeout after ".toList := by decide
      rw [e1, e2, List.cons_append, List.cons_append] at heq
      injection heq with h1 _
      exact absurd h1 (by decide)

/-- Witness for C8: a matching normal-mode endpoint succeeds immediately, a
matching bootloader-mode endpoint only produces the bootloader-mode failure
at the deadline, and a matching unrecognized-prefix endpoint fails
immediately with its filename reported verbatim. -/
theorem C8_postflash_prefix_behavior_witness :
    wait_for_device "usb-Klipper_rp2040_AA*".toList 30
        [[⟨"/dev/serial/by-id/usb-Klipper_rp2040_AA-if00".toList,
           "usb-Klipper_rp2040_AA-if00".toList⟩]] none
      = (true, some "/dev/serial/by-id/usb-Klipper_rp2040_AA-if00".toList, none)
    ∧ (∃ p, wait_for_device "usb-Klipper_rp2040_AA*".toList 30
        [[⟨"/dev/serial/by-id/usb-katapult_rp2040_AA-if00".toList,
           "usb-katapult_rp2040_AA-if00".toList⟩]] none
      = (false, some p, some "Device in bootloader mode (katapult)".toList))
    ∧ wait_for_device "usb-*".toList 30
        [[⟨"/dev/serial/by-id/usb-Beacon_Beacon_RevH_FC2-if00".toList,
           "usb-Beacon_Beacon_RevH_FC2-if00".toList⟩]] none
      = (false, some "/dev/serial/by-id/usb-Beacon_Beacon_RevH_FC2-if00".toList,
         some ("Unexpected device prefix: ".toList
           ++ "usb-Beacon_Beacon_RevH_FC2-if00".toList)) := by
  have hma : matchesVariants "usb-Klipper_rp2040_AA*".toList
      "usb-Klipper_rp2040_AA-if00".toList = true := by
    simp [matchesVariants, modeVariantsL, fnmatchL, globCore, splitSet, splitSetCore,
      setMatch, setItems, startsWithL, dropLit, pyLower]
  have hmb : matchesVariants "usb-Klipper_rp2040_AA*".toList
      "usb-katapult_rp2040_AA-if00".toList = true := by
    simp [matchesVariants, modeVariantsL, fnmatchL, globCore, splitSet, splitSetCore,
      setMatch, setItems, startsWithL, dropLit, pyLower]
  have hmc : matchesVariants "usb-*".toList "usb-Beacon_Beacon_RevH_FC2-if00".toList
      = true := by
    simp [matchesVariants, modeVariantsL, fnmatchL, globCore, splitSet, splitSetCore,
      setMatch, setItems, startsWithL, dropLit, pyLower]
  refine ⟨?_, ?_, ?_⟩
  · exact (C8_postflash_prefix_behavior "usb-Klipper_rp2040_AA*".toList 30 [] []
      ⟨"/dev/serial/by-id/usb-Klipper_rp2040_AA-if00".toList,
       "usb-Klipper_rp2040_AA-if00".toList⟩ [] none [] []).1
      (by intro x hx; simp at hx) hma (by decide)
  · exact (C8_postflash_prefix_behavior "usb-Klipper_rp2040_AA*".toList 30 [] []
      ⟨"x".toList, "x".toList⟩ [] none []
      [⟨"/dev/serial/by-id/usb-katapult_rp2040_AA-if00".toList,
        "usb-katapult_rp2040_AA-if00".toList⟩]).2.1
      (by
        intro tick htick x hx hm2
        simp at htick
        subst htick
        simp at hx
        subst hx
        decide)
      (by simpa using hmb)
  · exact ((C8_postflash_prefix_behavior "usb-*".toList 30 [] []
      ⟨"/dev/serial/by-id/usb-Beacon_Beacon_RevH_FC2-if00".toList,
       "usb-Beacon_Beacon_RevH_FC2-if00".toList⟩ [] none [] []).2.2
      (by intro x hx; simp at hx) hmc (by decide) (by decide)).1

/-- C9 counterexample: a manual-strategy device entry whose flash command is
`uf2_mount` returns a successful BootloaderResult immediately after operator
confirmation, with no device path and no polling — on a scan sequence where
the original filename never even disappears, two-phase polling would have
returned `none`, yet the handler succeeds. -/
theorem C9_manual_uf2_counterexample :
    (enter_manual
        { key := "pico".toList, name := "Pico".toList, mcu := "rp2040".toList,
          serial_pattern := some "usb-Klipper_rp2040_AA*".toList,
          flash_command := some "uf2_mount".toList,
          bootloader_method := some "manual".toList }
        .line
        "/dev/serial/by-id/usb-Klipper_rp2040_AA-if00".toList
        [["usb-Klipper_rp2040_AA-if00".toList]]).success = true
    ∧ (enter_manual
        { key := "pico".toList, name := "Pico".toList, mcu := "rp2040".toList,
          serial_pattern := some "usb-Klipper_rp2040_AA*".toList,
          flash_command := some "uf2_mount".toList,
          bootloader_method := some "manual".toList }
        .line
        "/dev/serial/by-id/usb-Klipper_rp2040_AA-if00".toList
        [["usb-Klipper_rp2040_AA-if00".toList]]).device_path = none
    ∧ poll_for_reenumeration "/dev/serial/by-id/usb-Klipper_rp2040_AA-if00".toList
        [["usb-Klipper_rp2040_AA-if00".toList]] = none := by decide

/-- C9 amended: the usb and serial handlers, and the manual handler for
entries whose flash command is not `uf2_mount`, perform the two-phase
disappearance-then-reappearance polling after their mode-change step — their
result is exactly the polling outcome — and return success only when an
endpoint whose signature equals the original device's signature was observed
to reappear; a manual `uf2_mount` entry instead succeeds without polling. -/
theorem C9_two_phase_handlers (dp : PyStr) (scans : List (List PyStr)) (ftPath : PyStr)
    (entry : DeviceEntry) :
    (enter_usb .ok dp scans
      = (match poll_for_reenumeration dp scans with
         | none => (⟨false, none,
             some "Device did not re-enumerate after USB bootloader entry".toList⟩ :
               BootloaderResult)
         | some p => (⟨true, some p, none⟩ : BootloaderResult)))
    ∧ ((enter_usb .ok dp scans).success = true →
        ∃ fs ∈ scans, ∃ f ∈ fs, (extract_device_signature f).isSome = true
          ∧ extract_device_signature f = extract_device_signature (basenameL dp))
    ∧ (enter_serial true ftPath .ok dp scans
      = (match poll_for_reenumeration dp scans with
         | none => (⟨false, none,
             some "Device did not re-enumerate after serial bootloader entry".toList⟩ :
               BootloaderResult)
         | some p => (⟨true, some p, none⟩ : BootloaderResult)))
    ∧ ((enter_serial true ftPath .ok dp scans).success = true →
        ∃ fs ∈ scans, ∃ f ∈ fs, (extract_device_signature f).isSome = true
          ∧ extract_device_signature f = extract_device_signature (basenameL dp))
    ∧ (entry.flash_command ≠ some "uf2_mount".toList →
        enter_manual entry .line dp scans
          = (match poll_for_reenumeration dp scans with
             | none => (⟨false, none,
                 some "Device did not re-enumerate after manual bootloader entry".toList⟩ :
                   BootloaderResult)
             | some p => (⟨true, some p, none⟩ : BootloaderResult)))
    ∧ (entry.flash_command ≠ some "uf2_mount".toList →
        (enter_manual entry .line dp scans).success = true →
        ∃ fs ∈ scans, ∃ f ∈ fs, (extract_device_signature f).isSome = true
          ∧ extract_device_signature f = extract_device_signature (basenameL dp))
    ∧ (entry.flash_command = some "uf2_mount".toList →
        enter_manual entry .line dp scans = ⟨true, none, none⟩) := by
  have husb : enter_usb .ok dp scans
      = (match poll_for_reenumeration dp scans with
         | none => (⟨false, none,
             some "Device did not re-enumerate after USB bootloader entry".toList⟩ :
               BootloaderResult)
         | some p => (⟨true, some p, none⟩ : BootloaderResult)) := rfl
  have hser : enter_serial true ftPath .ok dp scans
      = (match poll_for_reenumeration dp scans with
         | none => (⟨false, none,
             some "Device did not re-enumerate after serial bootloader entry".toList⟩ :
               BootloaderResult)
         | some p => (⟨true, some p, none⟩ : BootloaderResult)) := rfl
  have hman : entry.flash_command ≠ some "uf2_mount".toList →
      enter_manual entry .line dp scans
        = (match poll_for_reenumeration dp scans with
           | none => (⟨false, none,
               some "Device did not re-enumerate after manual bootloader entry".toList⟩ :
                 BootloaderResult)
           | some p => (⟨true, some p, none⟩ : BootloaderResult)) := by
    intro hne
    have hbeq : (entry.flash_command == some "uf2_mount".toList) = false :=
      beq_eq_false_iff_ne.mpr hne
    simp only [enter_manual, hbeq, Bool.false_eq_true, if_false]
  have huf2 : entry.flash_command = some "uf2_mount".toList →
      enter_manual entry .line dp scans = ⟨true, none, none⟩ := by
    intro heq
    have hbeq : (entry.flash_command == some "uf2_mount".toList) = true :=
      beq_iff_eq.mpr heq
    simp only [enter_manual, hbeq, if_true]
  have evidence : ∀ msg : PyStr,
      ((match poll_for_reenumeration dp scans with
        | none => (⟨false, none, some msg⟩ : BootloaderResult)
        | some p => (⟨true, some p, none⟩ : BootloaderResult)).success = true) →
      ∃ fs ∈ scans, ∃ f ∈ fs, (extract_device_signature f).isSome = true
        ∧ extract_device_signature f = extract_device_signature (basenameL dp) := by
    intro msg hs
    rcases hpoll : poll_for_reenumeration dp scans with _ | p
    · rw [hpoll] at hs; simp at hs
    · obtain ⟨fs, hfs, f, hf, hsome, heq, _⟩ := poll_some dp scans p hpoll
      exact ⟨fs, hfs, f, hf, hsome, heq⟩
  refine ⟨husb, ?_, hser, ?_, hman, ?_, huf2⟩
  · intro hs; exact evidence _ (husb ▸ hs)
  · intro hs; exact evidence _ (hser ▸ hs)
  · intro hne hs; exact evidence _ ((hman hne) ▸ hs)

/-- Witness for C9 amended: with a scan sequence where the original filename
disappears and a katapult-prefixed endpoint with the same signature appears,
the usb handler's success yields signature evidence, and a manual non-uf2
entry goes through the polling outcome. -/
theorem C9_two_phase_handlers_witness :
    (∃ fs ∈ ([[], ["usb-katapult_rp2040_AA-if00".toList]] : List (List PyStr)),
      ∃ f ∈ fs, (extract_device_signature f).isSome = true
        ∧ extract_device_signature f
          = extract_device_signature
              (basenameL "/dev/serial/by-id/usb-Klipper_rp2040_AA-if00".toList))
    ∧ enter_manual
        { key := "octo".toList, name := "Octopus".toList, mcu := "rp2040".toList,
          serial_pattern := some "usb-Klipper_rp2040_AA*".toList,
          flash_command := some "katapult".toList,
          bootloader_method := some "manual".toList }
        .line
        "/dev/serial/by-id/usb-Klipper_rp2040_AA-if00".toList
        [[], ["usb-katapult_rp2040_AA-if00".toList]]
      = ⟨true, some "/dev/serial/by-id/usb-katapult_rp2040_AA-if00".toList, none⟩ := by
  have c := C9_two_phase_handlers
    "/dev/serial/by-id/usb-Klipper_rp2040_AA-if00".toList
    [[], ["usb-katapult_rp2040_AA-if00".toList]]
    "ft".toList
    { key := "octo".toList, name := "Octopus".toList, mcu := "rp2040".toList,
      serial_pattern := some "usb-Klipper_rp2040_AA*".toList,
      flash_command := some "katapult".toList,
      bootloader_method := some "manual".toList }
  refine ⟨c.2.1 (by decide), (c.2.2.2.2.1 (by decide)).trans (by decide)⟩

end KFlash
